import Mathlib

/-!
Shallow embedding of `py_wget_cookie.py`: a command-line utility that
downloads one URL while attaching cookies harvested from locally installed
browsers. The script has two functions, `download_with_cookies` and
`get_output_filename`, plus an argument-parsing `__main__` block. External
capabilities (`browsercookie.load()`, `requests.Session.get`, the file
system) are modelled as an environment value describing how each of them
behaves during the single run; the script's observable behaviour is the
outcome reported by its exception handlers together with a trace of events
(text printed to stdout, the GET request issued, the file write performed).
-/

namespace PyWget

/-- A browser cookie jar: an opaque bag of (domain, name, value) cookies, as
produced by the external `browsercookie.load()` capability. -/
structure CookieJar where
  cookies : List (String × String × String)
deriving DecidableEq

/-- An HTTP response as the script sees it: `status_code`, `reason` phrase and
the raw body bytes (`response.content`). -/
structure Response where
  status_code : Nat
  reason : String
  content : List Nat
deriving DecidableEq

/-- Result of `session.get(url, allow_redirects=True)`: either a response, or
a `requests.exceptions.RequestException` (connection failure, timeout, DNS
failure, TLS failure) carrying a message. -/
inductive GetResult where
  | ok (resp : Response)
  | requestException (msg : String)
deriving DecidableEq

/-- Observable side effects of one run of the script. -/
inductive Event where
  | print (s : String)
  | getRequest (url : String) (sessionCookies : CookieJar)
      (userAgent : String) (allowRedirects : Bool)
  | wroteFile (path : String) (content : List Nat)
deriving DecidableEq

/-- Behaviour of the external world during the single run: what
`browsercookie.load()` returns (or the exception it raises), what
`session.get` does, and whether opening and writing the output file succeeds
(an `IOError` message on failure). -/
structure Env where
  loadCookies : Except String CookieJar
  httpGet : GetResult
  fileWrite : Except String Unit

/-- The outcome reported by `download_with_cookies`: either success, or the
failure category of the exception handler that fired. -/
inductive Outcome where
  | success
  | httpStatusError (code : Nat) (reason : String)
  | networkError (msg : String)
  | fileWriteError (msg : String)
  | unexpectedError (msg : String)
deriving DecidableEq

/-- The fixed browser-identifying `User-Agent` header set on the session. -/
def userAgentString : String :=
  "Mozilla/5.0 (X11; Linux x86_64; rv:109.0) Gecko/20100101 Firefox/115.0"

/-- Python truthiness of the possibly-absent cookie jar (`if cookie_jar:`):
`None` and an empty jar are both falsy. -/
def jarTruthy : Option CookieJar → Bool
  | none => false
  | some jar => !jar.cookies.isEmpty

/-- Modelled from the spec: the raise-on-error-status convention of the
external HTTP client, checked by `response.raise_for_status()`
(`requests.Response.raise_for_status` is third-party code, not part of this
repository). The spec: "Treats any HTTP status ≥ 400 as an error condition".
Returns `true` exactly when the call raises an `HTTPError`. -/
def raiseForStatusRaises (r : Response) : Bool :=
  decide (400 ≤ r.status_code)

/-- Shallow embedding of `download_with_cookies(url, output_file)`: the
outcome reported by its exception handlers, paired with the trace of
observable events (prints, the GET request issued, the file write). -/
def download_with_cookies (env : Env) (url : String) (output_file : String) :
    Outcome × List Event :=
  let loadEvents : List Event :=
    Event.print "Attempting to load cookies from browsers (Chrome, Firefox, etc.)..."
    :: (match env.loadCookies with
        | Except.ok jar =>
            if jar.cookies.isEmpty then
              [Event.print "Warning: No cookies were found or loaded."]
            else
              [Event.print s!"Successfully loaded {jar.cookies.length} cookies."]
        | Except.error e =>
            [Event.print s!"Error loading cookies: {e}",
             Event.print "This can happen if browsers are not found or if decryption fails.",
             Event.print "Proceeding without cookies..."])
  let cookie_jar : Option CookieJar :=
    match env.loadCookies with
    | Except.ok jar => some jar
    | Except.error _ => none
  let sessionCookies : CookieJar :=
    if jarTruthy cookie_jar then cookie_jar.getD ⟨[]⟩ else ⟨[]⟩
  let requestEvents : List Event :=
    [Event.print s!"\nDownloading: {url}",
     Event.getRequest url sessionCookies userAgentString true]
  match env.httpGet with
  | GetResult.requestException msg =>
      (Outcome.networkError msg,
       loadEvents ++ requestEvents
         ++ [Event.print s!"\nAn error occurred: {msg}"])
  | GetResult.ok resp =>
      if raiseForStatusRaises resp then
        (Outcome.httpStatusError resp.status_code resp.reason,
         loadEvents ++ requestEvents
           ++ [Event.print s!"\nHTTP Error: {resp.status_code} {resp.reason}",
               Event.print "This could be due to missing/invalid cookies or a bad URL."])
      else
        match env.fileWrite with
        | Except.error e =>
            (Outcome.fileWriteError e,
             loadEvents ++ requestEvents
               ++ [Event.print s!"\nError writing to file {output_file}: {e}"])
        | Except.ok _ =>
            (Outcome.success,
             loadEvents ++ requestEvents
               ++ [Event.wroteFile output_file resp.content,
                   Event.print s!"\nSuccess! Content saved to: {output_file}"])

/-- Characters allowed in a URL scheme after the first character
(`urllib.parse.scheme_chars`). -/
def isSchemeChar (c : Char) : Bool :=
  c.isAlpha || c.isDigit || c == '+' || c == '-' || c == '.'

/-- Split a character list at the first occurrence of `c`:
`some (before, after)` when `c` occurs, `none` otherwise. -/
def splitOnFirst (c : Char) : List Char → Option (List Char × List Char)
  | [] => none
  | x :: xs =>
    if x == c then some ([], xs)
    else
      match splitOnFirst c xs with
      | some (a, b) => some (x :: a, b)
      | none => none

/-- Strip a leading `scheme:` when the part before the first `:` is a valid
scheme (nonempty, leading ASCII letter, scheme characters after it), as
`urllib.parse.urlsplit` does. -/
def stripScheme (url : List Char) : List Char :=
  match splitOnFirst ':' url with
  | some (c :: cs, after) =>
      if c.isAlpha && cs.all isSchemeChar then after else url
  | _ => url

/-- Take characters up to the first `/`, `?` or `#`
(`urllib.parse._splitnetloc`): returns `(netloc, rest)`. -/
def splitNetlocChars : List Char → List Char × List Char
  | [] => ([], [])
  | x :: xs =>
    if x == '/' || x == '?' || x == '#' then ([], x :: xs)
    else
      let (a, b) := splitNetlocChars xs
      (x :: a, b)

/-- Drop everything from the first occurrence of `c` onwards (Python's
`url.split(c, 1)[0]`). -/
def dropFrom (c : Char) (url : List Char) : List Char :=
  match splitOnFirst c url with
  | some (a, _) => a
  | none => url

/-- Shallow embedding of `urlparse(url).path` as `get_output_filename` uses
it: strip the scheme and the `//netloc` part, then drop the fragment (from
the first `#`) and the query (from the first `?`); raise — return an error —
on a mismatched IPv6 bracket in the netloc, as CPython's `urlsplit` does. -/
def urlparse_path (url : String) : Except String String :=
  let rest := stripScheme url.toList
  let (netloc, rest) :=
    match rest with
    | '/' :: '/' :: r => splitNetlocChars r
    | _ => ([], rest)
  if (netloc.contains '[' && !(netloc.contains ']'))
      || (netloc.contains ']' && !(netloc.contains '[')) then
    Except.error "Invalid IPv6 URL"
  else
    Except.ok (String.mk (dropFrom '?' (dropFrom '#' rest)))

/-- `os.path.basename` on POSIX: everything after the last `/`. -/
def basename (p : String) : String :=
  String.mk ((p.toList.reverse.takeWhile (fun c => c != '/')).reverse)

/-- Python truthiness of the optional `provided_filename` argument
(`if provided_filename:`): `None` and `""` are both falsy. -/
def providedTruthy : Option String → Bool
  | none => false
  | some s => !(s == "")

/-- Shallow embedding of `get_output_filename(url, provided_filename)`: the
resolved filename, paired with any diagnostic prints it emits. -/
def get_output_filename (url : String) (provided_filename : Option String) :
    String × List Event :=
  if providedTruthy provided_filename then
    (provided_filename.getD "", [])
  else
    match urlparse_path url with
    | Except.ok path =>
        let filename := basename path
        if filename == "" then
          ("index.html",
           [Event.print "No filename in URL. Defaulting to 'index.html'"])
        else
          (filename, [])
    | Except.error e =>
        ("index.html",
         [Event.print s!"Could not parse URL to get filename: {e}. Defaulting to 'index.html'"])

/-- The `__main__` block after successful argument parsing: resolve the
output filename, run the download, and fall off the end of the script (exit
code 0). Returns the exit code, the downloader outcome and the full event
trace. -/
def main_run (env : Env) (url : String) (output : Option String) :
    Nat × Outcome × List Event :=
  let resolved := get_output_filename url output
  let downloaded := download_with_cookies env url resolved.1
  (0, downloaded.1, resolved.2 ++ downloaded.2)

/-- The user-facing message printed by the exception handler that corresponds
to each failure outcome. -/
def errorMessage (output_file : String) : Outcome → Option String
  | Outcome.success => none
  | Outcome.httpStatusError c r => some s!"\nHTTP Error: {c} {r}"
  | Outcome.networkError m => some s!"\nAn error occurred: {m}"
  | Outcome.fileWriteError m => some s!"\nError writing to file {output_file}: {m}"
  | Outcome.unexpectedError m => some s!"\nAn unexpected error occurred: {m}"

/-- The cookies the session carries when the GET request is issued: the
loaded jar when `browsercookie.load()` succeeded (an empty loaded jar and the
session's default jar coincide), and the session's empty default otherwise. -/
def loadedSessionCookies : Except String CookieJar → CookieJar
  | Except.ok jar => jar
  | Except.error _ => ⟨[]⟩

/-- Whether this event is the issuing of a GET request. -/
def Event.isGet : Event → Bool
  | Event.getRequest _ _ _ _ => true
  | _ => false

/-- Whether this event is a write of the output file. -/
def Event.isWrite : Event → Bool
  | Event.wroteFile _ _ => true
  | _ => false

/-- Every run of the downloader issues exactly one GET request, through the
session that carries the loaded cookies, the fixed User-Agent header that the
script sets, and redirect following. -/
lemma download_getEvents (env : Env) (url output_file : String) :
    (download_with_cookies env url output_file).2.filter Event.isGet
      = [Event.getRequest url (loadedSessionCookies env.loadCookies)
          userAgentString true] := by
  obtain ⟨lc, hg, fw⟩ := env
  rcases lc with e | ⟨⟨l⟩⟩ <;> rcases hg with resp | msg <;> rcases fw with u | e2 <;>
    simp only [download_with_cookies, loadedSessionCookies] <;>
    split_ifs <;>
    simp_all [jarTruthy, Event.isGet, List.isEmpty_iff]

/-- A path that is empty or ends in a slash has an empty basename. -/
lemma basename_eq_empty_of (p : String)
    (h : p.toList = [] ∨ p.toList.getLast? = some '/') : basename p = "" := by
  rcases h with h | h
  · have h' : p.data = [] := h
    apply String.ext
    simp [basename, h']
  · have hr : p.toList.reverse.head? = some '/' := by
      rw [List.head?_reverse]; exact h
    cases hrev : p.toList.reverse with
    | nil => rw [hrev] at hr; simp at hr
    | cons c t =>
      rw [hrev] at hr
      simp only [List.head?_cons, Option.some.injEq] at hr
      subst hr
      have hrev' : p.data.reverse = '/' :: t := hrev
      apply String.ext
      simp [basename, hrev']

/-- C4: for every URL whose parsed path has a non-empty final segment,
`get_output_filename(url, None)` returns that segment; for URLs whose path
ends in `/` or is empty it returns the literal `"index.html"`; on a URL-parse
failure it also returns `"index.html"` (and, being a total function, it never
raises). -/
theorem c4_filename_from_url (url : String) :
    (∀ path, urlparse_path url = Except.ok path → basename path ≠ "" →
        (get_output_filename url none).1 = basename path)
    ∧ (∀ path, urlparse_path url = Except.ok path →
        (path.toList = [] ∨ path.toList.getLast? = some '/') →
        (get_output_filename url none).1 = "index.html")
    ∧ (∀ e, urlparse_path url = Except.error e →
        (get_output_filename url none).1 = "index.html") := by
  refine ⟨?_, ?_, ?_⟩
  · intro path hp hb
    simp [get_output_filename, providedTruthy, hp, hb]
  · intro path hp hend
    have hb := basename_eq_empty_of path hend
    simp [get_output_filename, providedTruthy, hp, hb]
  · intro e he
    simp [get_output_filename, providedTruthy, he]

/-- Witness for C4 at three concrete URLs: a URL with a final segment, a URL
ending in `/`, and a URL on which the parse raises (mismatched IPv6
bracket). -/
theorem c4_filename_from_url_witness :
    (get_output_filename "http://example.com/a.zip" none).1 = basename "/a.zip"
    ∧ (get_output_filename "http://example.com/" none).1 = "index.html"
    ∧ (get_output_filename "http://[::1/x" none).1 = "index.html" :=
  ⟨(c4_filename_from_url "http://example.com/a.zip").1 "/a.zip" rfl (by decide),
   (c4_filename_from_url "http://example.com/").2.1 "/" rfl (by decide),
   (c4_filename_from_url "http://[::1/x").2.2 "Invalid IPv6 URL" rfl⟩

/-- C5: for every URL and every non-empty provided filename `p`,
`get_output_filename(url, p)` returns `p` unchanged, independent of the
URL. -/
theorem c5_provided_filename (url p : String) (hp : p ≠ "") :
    (get_output_filename url (some p)).1 = p := by
  simp [get_output_filename, providedTruthy, hp]

/-- Witness for C5 at a concrete URL and provided filename. -/
theorem c5_provided_filename_witness :
    (get_output_filename "http://example.com/a" (some "x")).1 = "x" :=
  c5_provided_filename "http://example.com/a" "x" (by decide)

/-- Counterexample for C9: `get_output_filename` is not free of side effects —
on a URL whose path ends in `/` it prints a diagnostic line to stdout. -/
theorem c9_counterexample :
    (get_output_filename "http://example.com/" none).2
      = [Event.print "No filename in URL. Defaulting to 'index.html'"]
    ∧ (get_output_filename "http://example.com/" none).2 ≠ [] := by
  decide

/-- C9 amended: `get_output_filename` performs no file access and issues no
network request — every event it emits is a print to stdout — and it prints
nothing when a filename is provided or when a non-empty filename is inferred
from the URL; its only side effect is the diagnostic line printed on the
default-to-`index.html` paths. -/
theorem c9_side_effects_amended (url : String) (provided : Option String) :
    (∀ ev ∈ (get_output_filename url provided).2, ∃ s, ev = Event.print s)
    ∧ (providedTruthy provided = true → (get_output_filename url provided).2 = [])
    ∧ (∀ path, providedTruthy provided = false →
        urlparse_path url = Except.ok path → basename path ≠ "" →
        (get_output_filename url provided).2 = []) := by
  refine ⟨?_, ?_, ?_⟩
  · intro ev hev
    by_cases ht : providedTruthy provided = true
    · simp [get_output_filename, ht] at hev
    · cases hu : urlparse_path url with
      | ok path =>
        by_cases hb : basename path = ""
        · simp [get_output_filename, ht, hu, hb] at hev
          exact ⟨_, hev⟩
        · simp [get_output_filename, ht, hu, hb] at hev
      | error e =>
        simp [get_output_filename, ht, hu] at hev
        exact ⟨_, hev⟩
  · intro ht
    simp [get_output_filename, ht]
  · intro path ht hu hb
    simp [get_output_filename, ht, hu, hb]

/-- Witness for the amended C9 at a concrete URL with an inferred filename:
no diagnostic is printed. -/
theorem c9_side_effects_amended_witness :
    (get_output_filename "http://example.com/a.zip" none).2 = [] :=
  (c9_side_effects_amended "http://example.com/a.zip" none).2.2 "/a.zip" rfl rfl
    (by decide)

/-- C10: the filename inferred from a URL depends only on the URL's parsed
path component — two URLs with the same path resolve to the same filename —
and in particular query-string and fragment text is stripped:
`http://example.com/a.zip?x=1#top` resolves to `a.zip`. -/
theorem c10_depends_only_on_path :
    (∀ u1 u2 p, urlparse_path u1 = Except.ok p → urlparse_path u2 = Except.ok p →
        (get_output_filename u1 none).1 = (get_output_filename u2 none).1)
    ∧ (get_output_filename "http://example.com/a.zip?x=1#top" none).1 = "a.zip" := by
  constructor
  · intro u1 u2 p h1 h2
    simp [get_output_filename, providedTruthy, h1, h2]
  · rfl

/-- Witness for C10: a URL with query and fragment and a URL on another host
with the same path resolve to the same filename. -/
theorem c10_depends_only_on_path_witness :
    (get_output_filename "http://example.com/a.zip?x=1#top" none).1
      = (get_output_filename "https://mirror.example.org/a.zip" none).1 :=
  c10_depends_only_on_path.1 "http://example.com/a.zip?x=1#top"
    "https://mirror.example.org/a.zip" "/a.zip" rfl rfl

/-- C1: when cookie extraction raises, `download_with_cookies` catches the
failure, prints a warning ("Error loading cookies: ...", "Proceeding without
cookies..."), still issues the GET request with an empty cookie set, and the
caller sees the same outcome as if an empty jar had been loaded — the
extraction failure is never propagated. -/
theorem c1_cookie_failure_soft (e : String) (g : GetResult) (w : Except String Unit)
    (url output_file : String) :
    Event.print s!"Error loading cookies: {e}"
        ∈ (download_with_cookies ⟨Except.error e, g, w⟩ url output_file).2
    ∧ Event.print "Proceeding without cookies..."
        ∈ (download_with_cookies ⟨Except.error e, g, w⟩ url output_file).2
    ∧ Event.getRequest url ⟨[]⟩ userAgentString true
        ∈ (download_with_cookies ⟨Except.error e, g, w⟩ url output_file).2
    ∧ (download_with_cookies ⟨Except.error e, g, w⟩ url output_file).1
        = (download_with_cookies ⟨Except.ok ⟨[]⟩, g, w⟩ url output_file).1 := by
  rcases g with resp | msg <;> rcases w with u | e2 <;>
    simp only [download_with_cookies] <;>
    split_ifs <;>
    simp [jarTruthy]

/-- C2: for every response with status below 400, when the file system
cooperates, `download_with_cookies` succeeds and the only file write in the
run stores the entire response body, byte for byte, at `output_file`. -/
theorem c2_success_writes_body (env : Env) (url output_file : String)
    (resp : Response)
    (hget : env.httpGet = GetResult.ok resp)
    (hstatus : resp.status_code < 400)
    (hwrite : env.fileWrite = Except.ok ()) :
    (download_with_cookies env url output_file).1 = Outcome.success
    ∧ (download_with_cookies env url output_file).2.filter Event.isWrite
        = [Event.wroteFile output_file resp.content] := by
  have hs : raiseForStatusRaises resp = false := by
    simp [raiseForStatusRaises]; omega
  obtain ⟨lc, hg, fw⟩ := env
  replace hget : hg = GetResult.ok resp := hget
  replace hwrite : fw = Except.ok () := hwrite
  subst hget hwrite
  rcases lc with e | ⟨⟨l⟩⟩ <;>
    simp only [download_with_cookies] <;>
    split_ifs <;>
    simp_all [jarTruthy, Event.isWrite]

/-- Witness for C2: a status-200 response with body `b"hello"` yields success
and a file write of exactly those five bytes. -/
theorem c2_success_writes_body_witness :
    (download_with_cookies
        ⟨Except.ok ⟨[]⟩, GetResult.ok ⟨200, "OK", [104, 101, 108, 108, 111]⟩,
         Except.ok ()⟩ "http://example.com/hello.txt" "hello.txt").1
      = Outcome.success
    ∧ (download_with_cookies
        ⟨Except.ok ⟨[]⟩, GetResult.ok ⟨200, "OK", [104, 101, 108, 108, 111]⟩,
         Except.ok ()⟩ "http://example.com/hello.txt" "hello.txt").2.filter
          Event.isWrite
      = [Event.wroteFile "hello.txt" [104, 101, 108, 108, 111]] :=
  c2_success_writes_body
    ⟨Except.ok ⟨[]⟩, GetResult.ok ⟨200, "OK", [104, 101, 108, 108, 111]⟩,
     Except.ok ()⟩
    "http://example.com/hello.txt" "hello.txt"
    ⟨200, "OK", [104, 101, 108, 108, 111]⟩ rfl (by decide) rfl

/-- C3: for every response with status at least 400, `download_with_cookies`
reports an `HttpStatusError` carrying the status code and reason phrase,
never writes the output file, and issues exactly one GET request (no
retry). -/
theorem c3_http_status_error (env : Env) (url output_file : String)
    (resp : Response)
    (hget : env.httpGet = GetResult.ok resp)
    (hstatus : 400 ≤ resp.status_code) :
    (download_with_cookies env url output_file).1
        = Outcome.httpStatusError resp.status_code resp.reason
    ∧ (download_with_cookies env url output_file).2.filter Event.isWrite = []
    ∧ ((download_with_cookies env url output_file).2.filter Event.isGet).length
        = 1 := by
  have hlen :
      ((download_with_cookies env url output_file).2.filter Event.isGet).length
        = 1 := by
    rw [download_getEvents]
    rfl
  have hs : raiseForStatusRaises resp = true := by
    simp [raiseForStatusRaises, hstatus]
  obtain ⟨lc, hg, fw⟩ := env
  replace hget : hg = GetResult.ok resp := hget
  subst hget
  refine ⟨?_, ?_, hlen⟩ <;>
    rcases lc with e | ⟨⟨l⟩⟩ <;> rcases fw with u | e2 <;>
      simp only [download_with_cookies] <;>
      split_ifs <;>
      simp_all [jarTruthy, Event.isWrite]

/-- Witness for C3: a 404 response yields `HttpStatusError 404 "Not Found"`,
no file write, and a single GET request. -/
theorem c3_http_status_error_witness :
    (download_with_cookies
        ⟨Except.ok ⟨[]⟩, GetResult.ok ⟨404, "Not Found", []⟩, Except.ok ()⟩
        "http://example.com/missing" "missing").1
      = Outcome.httpStatusError 404 "Not Found"
    ∧ (download_with_cookies
        ⟨Except.ok ⟨[]⟩, GetResult.ok ⟨404, "Not Found", []⟩, Except.ok ()⟩
        "http://example.com/missing" "missing").2.filter Event.isWrite = []
    ∧ ((download_with_cookies
        ⟨Except.ok ⟨[]⟩, GetResult.ok ⟨404, "Not Found", []⟩, Except.ok ()⟩
        "http://example.com/missing" "missing").2.filter Event.isGet).length
      = 1 :=
  c3_http_status_error
    ⟨Except.ok ⟨[]⟩, GetResult.ok ⟨404, "Not Found", []⟩, Except.ok ()⟩
    "http://example.com/missing" "missing" ⟨404, "Not Found", []⟩ rfl
    (by decide)

/-- C6: for every network-level failure of the GET request (the
`requests.exceptions.RequestException` cases: connection failure, timeout,
DNS failure, TLS failure), `download_with_cookies` reports a `NetworkError`
and never writes the output file. -/
theorem c6_network_error (env : Env) (url output_file : String) (msg : String)
    (hget : env.httpGet = GetResult.requestException msg) :
    (download_with_cookies env url output_file).1 = Outcome.networkError msg
    ∧ (download_with_cookies env url output_file).2.filter Event.isWrite
        = [] := by
  obtain ⟨lc, hg, fw⟩ := env
  replace hget : hg = GetResult.requestException msg := hget
  subst hget
  rcases lc with e | ⟨⟨l⟩⟩ <;> rcases fw with u | e2 <;>
    simp only [download_with_cookies] <;>
    split_ifs <;>
    simp_all [jarTruthy, Event.isWrite]

/-- Witness for C6: a simulated timeout yields `NetworkError` and no file
write. -/
theorem c6_network_error_witness :
    (download_with_cookies
        ⟨Except.ok ⟨[]⟩, GetResult.requestException "timeout", Except.ok ()⟩
        "http://example.com/slow" "slow").1
      = Outcome.networkError "timeout"
    ∧ (download_with_cookies
        ⟨Except.ok ⟨[]⟩, GetResult.requestException "timeout", Except.ok ()⟩
        "http://example.com/slow" "slow").2.filter Event.isWrite = [] :=
  c6_network_error
    ⟨Except.ok ⟨[]⟩, GetResult.requestException "timeout", Except.ok ()⟩
    "http://example.com/slow" "slow" "timeout" rfl

/-- C7: no exception escapes the expected-failure paths — the run is a total
function whose failure outcomes are each converted into the printed
user-facing message of the handler that caught them — and the process
completes with exit code 0. -/
theorem c7_errors_caught_exit_zero (env : Env) (url : String)
    (output : Option String) :
    (main_run env url output).1 = 0
    ∧ (∀ m, errorMessage (get_output_filename url output).1
          (main_run env url output).2.1 = some m →
        Event.print m ∈ (main_run env url output).2.2) := by
  refine ⟨rfl, ?_⟩
  intro m hm
  obtain ⟨lc, hg, fw⟩ := env
  rcases hg with resp | msg <;> rcases fw with u | e2 <;>
    simp only [main_run, download_with_cookies] at hm ⊢ <;>
    split_ifs at hm ⊢ <;>
    simp_all [errorMessage]

/-- Witness for C7: with a 404 response the exit code is 0 and the HTTP-error
message is printed. -/
theorem c7_errors_caught_exit_zero_witness :
    (main_run ⟨Except.ok ⟨[]⟩, GetResult.ok ⟨404, "Not Found", []⟩, Except.ok ()⟩
        "http://example.com/missing" none).1 = 0
    ∧ Event.print "\nHTTP Error: 404 Not Found"
        ∈ (main_run ⟨Except.ok ⟨[]⟩, GetResult.ok ⟨404, "Not Found", []⟩,
            Except.ok ()⟩ "http://example.com/missing" none).2.2 :=
  ⟨(c7_errors_caught_exit_zero
      ⟨Except.ok ⟨[]⟩, GetResult.ok ⟨404, "Not Found", []⟩, Except.ok ()⟩
      "http://example.com/missing" none).1,
   (c7_errors_caught_exit_zero
      ⟨Except.ok ⟨[]⟩, GetResult.ok ⟨404, "Not Found", []⟩, Except.ok ()⟩
      "http://example.com/missing" none).2 "\nHTTP Error: 404 Not Found" rfl⟩

/-- C8: on every invocation the single GET request of the run goes through
the session pre-loaded with the loaded cookies and the fixed
browser-identifying User-Agent header, with redirect following enabled. -/
theorem c8_session_configuration (env : Env) (url output_file : String) :
    (download_with_cookies env url output_file).2.filter Event.isGet
      = [Event.getRequest url (loadedSessionCookies env.loadCookies)
          userAgentString true] :=
  download_getEvents env url output_file

end PyWget
